import Mathlib

/-!
Shallow embedding of `src/app.py` (LinkySteps, a Flask link shortener with
interstitial pages) and proofs of its specification claims.

The persistent store (a single SQLite table `links`) is modelled as a list of
records; SQL statements become list operations.  HTTP handlers become pure
functions from the handler arguments and the store to a structured response
together with the updated store.  Randomness (`random.choice`) is modelled by
an explicit stream of naturals, and the potentially unbounded retry loop of
`unique_code` by a fuel parameter returning `Option`.
-/

set_option autoImplicit false

namespace LinkySteps

/-! ### Configuration constants (src/app.py lines 22-26) -/

def CODE_LEN : Nat := 6

def WAIT_SECONDS : Nat := 20

def INTERSTITIAL_STEPS : Nat := 1

/-! ### The Link record and the store

`CREATE TABLE links (code TEXT PRIMARY KEY, target TEXT NOT NULL,
created_at TEXT NOT NULL, title TEXT, clicks INTEGER NOT NULL DEFAULT 0)`.
-/

structure Link where
  code : String
  target : String
  created_at : String
  title : Option String
  clicks : Nat
deriving Repr, DecidableEq

/-- The `links` table, as a list of rows. -/
abbrev Store := List Link

/-- Lookup by code: `SELECT * FROM links WHERE code = ?` (first matching row). -/
def lookup (code : String) (s : Store) : Option Link :=
  s.find? (fun l => l.code == code)

/-- Insert: `INSERT OR REPLACE INTO links(code, target, created_at, title)
VALUES(?,?,?,NULL)`: any existing row with the same primary key is removed and
the fresh row is inserted; the unlisted `clicks` column takes its default 0. -/
def insertOrReplace (code target created_at : String) (s : Store) : Store :=
  s.filter (fun l => l.code != code) ++ [⟨code, target, created_at, none, 0⟩]

/-- Click update: `UPDATE links SET clicks = clicks + 1 WHERE code = ?`. -/
def increment_clicks (code : String) (s : Store) : Store :=
  s.map (fun l => if l.code == code then { l with clicks := l.clicks + 1 } else l)

/-! ### `urllib.parse.urlsplit`, restricted to the scheme/netloc fields

`is_valid_url` only inspects `p.scheme` and `p.netloc`, so we embed the part
of CPython's `urlsplit` that computes them: leading C0-control/space
characters are stripped, every tab/CR/LF is removed, a scheme is split off
when the text before the first `:` is a letter followed by scheme characters,
and the netloc is the text between `//` and the next `/`, `?` or `#`.
A mismatched square bracket in the netloc raises `ValueError`, modelled as
`none` (the caller catches it). -/

def C0orSpace (c : Char) : Bool := c.toNat ≤ 32

def removedURLByte (c : Char) : Bool := c == '\t' || c == '\r' || c == '\n'

def isSchemeChar (c : Char) : Bool := c.isAlphanum || c == '+' || c == '-' || c == '.'

/-- Split off `scheme:` from the cleaned character list, returning the
lower-cased scheme and the remainder; no scheme yields `""`. -/
def splitScheme (cs : List Char) : List Char × List Char :=
  match cs.findIdx? (fun c => c == ':') with
  | none => ([], cs)
  | some i =>
    let pre := cs.take i
    match pre with
    | [] => ([], cs)
    | c :: _ =>
      if c.isAlpha && pre.all isSchemeChar then
        (pre.map Char.toLower, cs.drop (i + 1))
      else ([], cs)

/-- The netloc is read between `//` and the next `/`, `?` or `#`. -/
def netlocStop (c : Char) : Bool := c == '/' || c == '?' || c == '#'

/-- Model of `urlsplit(u)`, projected to `(scheme, netloc)`; `none` models the
`ValueError` raised on a mismatched `[`/`]` in the netloc. -/
def urlsplitSchemeNetloc (u : String) : Option (String × String) :=
  let cs := (u.data.dropWhile C0orSpace).filter (fun c => !removedURLByte c)
  let p := splitScheme cs
  match p.2 with
  | '/' :: '/' :: r2 =>
    let netloc := r2.takeWhile (fun c => !netlocStop c)
    if (netloc.contains '[' && !netloc.contains ']')
        || (netloc.contains ']' && !netloc.contains '[') then
      none
    else
      some (⟨p.1⟩, ⟨netloc⟩)
  | _ => some (⟨p.1⟩, "")

/-- Validation `is_valid_url(u)`: scheme in {http, https} and non-empty netloc; any
parse exception yields False. -/
def is_valid_url (u : String) : Bool :=
  match urlsplitSchemeNetloc u with
  | none => false
  | some (scheme, netloc) =>
    (scheme == "http" || scheme == "https") && !(netloc == "")

/-! ### Python `str.strip()` -/

/-- Python whitespace for `str.strip()` (the ASCII part of `str.isspace`). -/
def pyWs (c : Char) : Bool :=
  c == ' ' || c == '\t' || c == '\n' || c == '\r'
    || c == '\x0b' || c == '\x0c'
    || c == '\x1c' || c == '\x1d' || c == '\x1e' || c == '\x1f' || c == '\x85'

/-- Python `s.strip()`: remove leading and trailing whitespace. -/
def pyStrip (s : String) : String :=
  ⟨((s.data.dropWhile pyWs).reverse.dropWhile pyWs).reverse⟩

/-! ### Code generation (src/app.py lines 65-83) -/

/-- Alphabet `BASE62 = string.ascii_letters + string.digits`. -/
def BASE62 : List Char :=
  "abcdefghijklmnopqrstuvwxyzABCDEFGHIJKLMNOPQRSTUVWXYZ0123456789".data

/-- Model of `random.choice(seq)`: pick the element at a uniformly drawn index below
`seq`'s length; the draw is modelled by an arbitrary natural `r`. -/
def random_choice (l : List Char) (r : Nat) : Char :=
  l.getD (r % l.length) 'a'

/-- Generator `random_code(n)`: join `n` independent choices from `BASE62`; the stream
`rs` supplies the random draws. -/
def random_code (n : Nat) (rs : Nat → Nat) : String :=
  ⟨(List.range n).map (fun i => random_choice BASE62 (rs i))⟩

/-- Generator `unique_code()`: retry `random_code()` until the code is absent from the
store.  The unbounded `while True` loop is given fuel; `none` models
non-termination within the fuel.  `rs k` supplies the draws of attempt `k`. -/
def unique_code (s : Store) (rs : Nat → Nat → Nat) : Nat → Option String
  | 0 => none
  | fuel + 1 =>
    let c := random_code CODE_LEN (rs fuel)
    match lookup c s with
    | none => some c
    | some _ => unique_code s rs fuel

/-! ### HTTP responses

Each handler's outcome is the data the rendered template or redirect depends
on; presentation markup is out of scope. -/

inductive Response where
  /-- Result of `abort(404)` / the 404 error handler. -/
  | notFound : Response
  /-- Result of `redirect(url)`. -/
  | redirectTo (location : String) : Response
  /-- Page `INDEX_HTML` (the submission form) with an HTTP status. -/
  | formPage (status : Nat) (wait_seconds : Nat) : Response
  /-- The confirmation page showing the absolute short URL. -/
  | confirmPage (short : String) : Response
  /-- Page `INTERSTITIAL_HTML`: waiting page with countdown and `next_url`. -/
  | interstitialPage (seconds : Nat) (next_url : String) : Response
  /-- Page `FINAL_REDIRECT_HTML`: auto/manual redirect page to `target`. -/
  | finalPage (target : String) : Response
deriving Repr, DecidableEq

/-- Route URL `url_for("interstitial", code=code, step=step)` = `/s/<code>/<step>`. -/
def url_interstitial (code : String) (step : Nat) : String :=
  "/s/" ++ code ++ "/" ++ toString step

/-- Route URL `url_for("final", code=code)` = `/final/<code>`. -/
def url_final (code : String) : String :=
  "/final/" ++ code

/-! ### Route handlers (src/app.py lines 280-344) -/

/-- Handler for `POST /create`.  `raw` is `request.form.get("target") or ""`, `now` the
`datetime.utcnow().isoformat()` timestamp, `origin` the external URL root so
that `url_for("go", code=code, _external=True) = origin ++ "/go/" ++ code`;
`rs`/`fuel` drive `unique_code` (`none` = its loop did not finish). -/
def create (raw now origin : String) (rs : Nat → Nat → Nat) (fuel : Nat)
    (s : Store) : Option (Response × Store) :=
  let target := pyStrip raw
  if is_valid_url target then
    match unique_code s rs fuel with
    | none => none
    | some code =>
      some (.confirmPage (origin ++ "/go/" ++ code),
        insertOrReplace code target now s)
  else
    some (.formPage 400 WAIT_SECONDS, s)

/-- Handler for `GET /go/<code>`. -/
def go (code : String) (s : Store) : Response × Store :=
  match lookup code s with
  | none => (.notFound, s)
  | some _ => (.redirectTo (url_interstitial code 1), s)

/-- Handler for `GET /s/<code>/<int:step>`. -/
def interstitial (code : String) (step : Nat) (s : Store) : Response × Store :=
  match lookup code s with
  | none => (.notFound, s)
  | some _ =>
    let total := INTERSTITIAL_STEPS
    if step > total then
      (.redirectTo (url_final code), s)
    else
      let next_url :=
        if step < total then url_interstitial code (step + 1) else url_final code
      (.interstitialPage WAIT_SECONDS next_url, s)

/-- Handler for `GET /final/<code>`: the target is read from the fetched row before the
click counter is updated. -/
def final (code : String) (s : Store) : Response × Store :=
  match lookup code s with
  | none => (.notFound, s)
  | some row => (.finalPage row.target, increment_clicks code s)

/-- Werkzeug's `<int:...>` URL converter: the path segment must match the
regular expression `\d+` and converts to its decimal value, so `0` and other
non-negative integers are accepted. -/
def flaskIntConvert (seg : String) : Option Nat :=
  if seg.data ≠ [] ∧ seg.data.all Char.isDigit then
    some (seg.data.foldl (fun n c => n * 10 + (c.toNat - 48)) 0)
  else
    none

/-! ### Store invariants (spec section 3) -/

/-- The `code` column of every row. -/
def codes (s : Store) : List String := s.map Link.code

/-- Store well-formedness: codes are unique across all records and every
stored target passed URL validation. -/
abbrev WF (s : Store) : Prop :=
  (codes s).Nodup ∧ ∀ l ∈ s, is_valid_url l.target = true

/-- No record's click counter decreases from `s` to `s'`. -/
def ClicksMono (s s' : Store) : Prop :=
  ∀ c l l', lookup c s = some l → lookup c s' = some l' → l.clicks ≤ l'.clicks

/-- Sample store used to instantiate proved theorems at concrete inputs. -/
def sampleStore : Store :=
  [⟨"aaaaaa", "https://example.com", "2024-01-01T00:00:00", none, 5⟩]

end LinkySteps

/-! ## Auxiliary lemmas -/

namespace LinkySteps

theorem find?_filter_of_imp {α : Type} (p q : α → Bool) (l : List α)
    (h : ∀ x, p x = true → q x = true) :
    (l.filter q).find? p = l.find? p := by
  induction l with
  | nil => rfl
  | cons x xs ih =>
    cases hq : q x <;> cases hp : p x <;>
      simp_all [List.filter_cons, List.find?_cons]

theorem lookup_insertOrReplace_self (code target now : String) (s : Store) :
    lookup code (insertOrReplace code target now s)
      = some ⟨code, target, now, none, 0⟩ := by
  unfold lookup insertOrReplace
  rw [List.find?_append]
  have h1 : (s.filter (fun l => l.code != code)).find? (fun l => l.code == code)
      = none := by
    rw [List.find?_eq_none]
    intro x hx
    have hx2 := (List.mem_filter.mp hx).2
    simp only [bne_iff_ne, ne_eq] at hx2
    simp [hx2]
  rw [h1]
  simp [List.find?]

theorem lookup_insertOrReplace_ne (c code target now : String) (s : Store)
    (h : c ≠ code) :
    lookup c (insertOrReplace code target now s) = lookup c s := by
  unfold lookup insertOrReplace
  rw [List.find?_append]
  have h2 : List.find? (fun l => l.code == c)
      [(⟨code, target, now, none, 0⟩ : Link)] = none := by
    have hb : (code == c) = false := beq_eq_false_iff_ne.mpr (Ne.symm h)
    simp [List.find?, hb]
  rw [h2, Option.or_none]
  exact find?_filter_of_imp _ _ s (fun x hx => by
    have hx2 : x.code = c := by simpa using hx
    simp [hx2]
    exact h)

theorem lookup_increment (code c : String) (s : Store) :
    lookup c (increment_clicks code s)
      = (lookup c s).map
          (fun l => if l.code == code then { l with clicks := l.clicks + 1 } else l) := by
  unfold lookup increment_clicks
  rw [List.find?_map]
  have hpf : ((fun l : Link => l.code == c)
        ∘ (fun l => if l.code == code then { l with clicks := l.clicks + 1 } else l))
      = fun l : Link => l.code == c := by
    funext l
    by_cases hl : (l.code == code) = true <;> simp [Function.comp, hl]
  rw [hpf]

theorem unique_code_spec (s : Store) (rs : Nat → Nat → Nat) :
    ∀ fuel c, unique_code s rs fuel = some c →
      lookup c s = none ∧ ∃ k, c = random_code CODE_LEN (rs k) := by
  intro fuel
  induction fuel with
  | zero => intro c h; cases h
  | succ n ih =>
    intro c h
    replace h : (match lookup (random_code CODE_LEN (rs n)) s with
        | none => some (random_code CODE_LEN (rs n))
        | some _ => unique_code s rs n) = some c := h
    cases hl : lookup (random_code CODE_LEN (rs n)) s with
    | none =>
      rw [hl] at h
      dsimp only at h
      cases h
      exact ⟨hl, n, rfl⟩
    | some _ =>
      rw [hl] at h
      dsimp only at h
      exact ih c h

theorem random_choice_mem_BASE62 (r : Nat) : random_choice BASE62 r ∈ BASE62 := by
  unfold random_choice
  have hr : r % BASE62.length < BASE62.length := Nat.mod_lt _ (by decide)
  rw [List.getD_eq_getElem _ _ hr]
  exact List.getElem_mem _

theorem random_code_length (n : Nat) (rs : Nat → Nat) :
    (random_code n rs).length = n := by
  unfold random_code
  simp [String.length]

theorem random_code_mem (n : Nat) (rs : Nat → Nat) :
    ∀ ch ∈ (random_code n rs).data, ch ∈ BASE62 := by
  intro ch hch
  unfold random_code at hch
  simp only [List.mem_map] at hch
  obtain ⟨i, _, rfl⟩ := hch
  exact random_choice_mem_BASE62 _

theorem create_success (raw now origin : String) (rs : Nat → Nat → Nat)
    (fuel : Nat) (s : Store) (code : String)
    (hv : is_valid_url (pyStrip raw) = true)
    (hc : unique_code s rs fuel = some code) :
    create raw now origin rs fuel s
      = some (.confirmPage (origin ++ "/go/" ++ code),
          insertOrReplace code (pyStrip raw) now s) := by
  unfold create
  rw [if_pos hv, hc]

theorem lookup_beq {code : String} {s : Store} {l : Link}
    (h : lookup code s = some l) : (l.code == code) = true := by
  unfold lookup at h
  exact @List.find?_some Link (fun x => x.code == code) l s h

theorem go_store_eq (code : String) (s : Store) : (go code s).2 = s := by
  unfold go
  cases lookup code s <;> rfl

theorem interstitial_store_eq (code : String) (step : Nat) (s : Store) :
    (interstitial code step s).2 = s := by
  unfold interstitial
  cases lookup code s with
  | none => rfl
  | some _ =>
    dsimp only
    split <;> rfl

theorem clicksMono_refl (s : Store) : ClicksMono s s := by
  intro c l l' h1 h2
  rw [h1] at h2
  cases h2
  exact Nat.le_refl _

theorem codes_increment (code : String) (s : Store) :
    codes (increment_clicks code s) = codes s := by
  unfold codes increment_clicks
  rw [List.map_map]
  apply List.map_congr_left
  intro l _
  by_cases hl : (l.code == code) = true <;> simp [Function.comp, hl]

theorem increment_preserves_WF (code : String) (s : Store) (h : WF s) :
    WF (increment_clicks code s) := by
  obtain ⟨h1, h2⟩ := h
  constructor
  · rw [codes_increment]
    exact h1
  · intro l hl
    unfold increment_clicks at hl
    obtain ⟨x, hx, rfl⟩ := List.mem_map.mp hl
    by_cases hxx : (x.code == code) = true <;> simpa [hxx] using h2 x hx

theorem increment_clicksMono (code : String) (s : Store) :
    ClicksMono s (increment_clicks code s) := by
  intro c l l' h1 h2
  rw [lookup_increment, h1, Option.map_some'] at h2
  cases h2
  by_cases hl : (l.code == code) = true <;> simp [hl]

theorem insertOrReplace_preserves_WF (code target now : String) (s : Store)
    (hWF : WF s) (hv : is_valid_url target = true) :
    WF (insertOrReplace code target now s) := by
  obtain ⟨h1, h2⟩ := hWF
  constructor
  · unfold codes insertOrReplace
    rw [List.map_append]
    refine List.Nodup.append ?_ (List.nodup_singleton _) ?_
    · exact h1.sublist ((List.filter_sublist s).map _)
    · intro a ha hb
      have hab : a = code := by simpa using hb
      subst hab
      obtain ⟨x, hx, hxc⟩ := List.mem_map.mp ha
      have hx2 := (List.mem_filter.mp hx).2
      rw [hxc] at hx2
      simp at hx2
  · intro l hl
    unfold insertOrReplace at hl
    rcases List.mem_append.mp hl with hm | hm
    · exact h2 l (List.mem_filter.mp hm).1
    · have : l = ⟨code, target, now, none, 0⟩ := by simpa using hm
      subst this
      exact hv

theorem insertOrReplace_clicksMono (code target now : String) (s : Store)
    (hfresh : lookup code s = none) :
    ClicksMono s (insertOrReplace code target now s) := by
  intro c l l' h1 h2
  by_cases hc : c = code
  · subst hc
    rw [h1] at hfresh
    cases hfresh
  · rw [lookup_insertOrReplace_ne c code target now s hc, h1] at h2
    cases h2
    exact Nat.le_refl _

theorem head?_dropWhile_not {α : Type} (p : α → Bool) (l : List α) :
    ∀ c, (l.dropWhile p).head? = some c → p c = false := by
  induction l with
  | nil => intro c h; cases h
  | cons x xs ih =>
    intro c h
    rw [List.dropWhile_cons] at h
    cases hx : p x with
    | true =>
      rw [if_pos (by rw [hx])] at h
      exact ih c h
    | false =>
      rw [if_neg (by rw [hx]; exact Bool.false_ne_true)] at h
      have : x = c := by simpa using h
      subst this
      exact hx

theorem getLast?_dropWhile {α : Type} (p : α → Bool) (l : List α) :
    l.dropWhile p = [] ∨ (l.dropWhile p).getLast? = l.getLast? := by
  induction l with
  | nil => left; rfl
  | cons x xs ih =>
    rw [List.dropWhile_cons]
    cases hx : p x with
    | false =>
      right
      rw [if_neg (by decide)]
    | true =>
      rw [if_pos (by decide)]
      cases xs with
      | nil => left; rfl
      | cons y ys =>
        rcases ih with h | h
        · left; exact h
        · right
          rw [h]
          exact List.getLast?_cons_cons.symm

theorem pyStrip_data (s : String) :
    (pyStrip s).data = ((s.data.dropWhile pyWs).reverse.dropWhile pyWs).reverse := rfl

theorem pyStrip_head (raw : String) :
    ∀ c, (pyStrip raw).data.head? = some c → pyWs c = false := by
  intro c h
  rw [pyStrip_data, List.head?_reverse] at h
  rcases getLast?_dropWhile pyWs (raw.data.dropWhile pyWs).reverse with he | he
  · rw [he] at h
    cases h
  · rw [he, List.getLast?_reverse] at h
    exact head?_dropWhile_not pyWs raw.data c h

theorem pyStrip_last (raw : String) :
    ∀ c, (pyStrip raw).data.getLast? = some c → pyWs c = false := by
  intro c h
  rw [pyStrip_data, List.getLast?_reverse] at h
  exact head?_dropWhile_not pyWs _ c h

theorem url_interstitial_one (code : String) :
    url_interstitial code 1 = "/s/" ++ code ++ "/1" := by
  unfold url_interstitial
  rw [String.append_assoc]
  rfl

/-! ## Claims -/

/-- C1: Round-trip.  A Link created via `POST /create` with a validated
target (the submission after `strip()`) is stored under the generated code,
and a later `GET /final/<code>` for that code renders a redirect page whose
destination URL is exactly the stored target, byte-identical. -/
theorem C1_roundtrip (raw now origin : String) (rs : Nat → Nat → Nat)
    (fuel : Nat) (s : Store) (code : String)
    (hv : is_valid_url (pyStrip raw) = true)
    (hc : unique_code s rs fuel = some code) :
    ∃ s', create raw now origin rs fuel s
        = some (.confirmPage (origin ++ "/go/" ++ code), s')
      ∧ (final code s').1 = .finalPage (pyStrip raw) := by
  refine ⟨insertOrReplace code (pyStrip raw) now s,
    create_success raw now origin rs fuel s code hv hc, ?_⟩
  unfold final
  rw [lookup_insertOrReplace_self]

/-- Witness for C1 at a concrete creation. -/
theorem C1_roundtrip_witness :
    ∃ s', create " https://example.com " "2024-01-01T00:00:00"
          "http://localhost" (fun _ _ => 0) 1 []
        = some (.confirmPage ("http://localhost" ++ "/go/" ++ "aaaaaa"), s')
      ∧ (final "aaaaaa" s').1 = .finalPage (pyStrip " https://example.com ") :=
  C1_roundtrip " https://example.com " "2024-01-01T00:00:00" "http://localhost"
    (fun _ _ => 0) 1 [] "aaaaaa" (by decide) (by decide)

/-- C2: for a code present in the store, each `GET /final/<code>` increments
that Link's clicks by exactly 1 (all other fields unchanged), so visiting it
twice increments clicks by exactly 2 relative to the prior value; for an
unknown code it returns 404 and leaves the store — hence every click
counter — unchanged. -/
theorem C2_final_clicks (code : String) (s : Store) :
    (∀ l, lookup code s = some l →
        lookup code (final code s).2 = some { l with clicks := l.clicks + 1 }
      ∧ lookup code (final code (final code s).2).2
          = some { l with clicks := l.clicks + 2 })
  ∧ (lookup code s = none → final code s = (.notFound, s)) := by
  constructor
  · intro l hl
    have hbeq : (l.code == code) = true := lookup_beq hl
    have h1 : (final code s).2 = increment_clicks code s := by
      unfold final
      rw [hl]
    have hl1 : lookup code (increment_clicks code s)
        = some { l with clicks := l.clicks + 1 } := by
      rw [lookup_increment, hl, Option.map_some', if_pos hbeq]
    refine ⟨h1 ▸ hl1, ?_⟩
    rw [h1]
    have h2 : (final code (increment_clicks code s)).2
        = increment_clicks code (increment_clicks code s) := by
      unfold final
      rw [hl1]
    rw [h2, lookup_increment, hl1, Option.map_some', if_pos hbeq]
  · intro h
    unfold final
    rw [h]

/-- Witness for C2: clicks go 5 → 6 → 7 on two visits; an unknown code
yields 404 with the store unchanged. -/
theorem C2_final_clicks_witness :
    (lookup "aaaaaa" (final "aaaaaa" sampleStore).2
        = some ⟨"aaaaaa", "https://example.com", "2024-01-01T00:00:00", none, 6⟩
      ∧ lookup "aaaaaa" (final "aaaaaa" (final "aaaaaa" sampleStore).2).2
        = some ⟨"aaaaaa", "https://example.com", "2024-01-01T00:00:00", none, 7⟩)
  ∧ final "zzzzzz" sampleStore = (.notFound, sampleStore) :=
  ⟨(C2_final_clicks "aaaaaa" sampleStore).1
      ⟨"aaaaaa", "https://example.com", "2024-01-01T00:00:00", none, 5⟩ (by decide),
   (C2_final_clicks "zzzzzz" sampleStore).2 (by decide)⟩

/-- C3: every operation preserves the store invariants — codes stay unique
across all records, every stored target passed URL validation when its Link
was created, and no operation decreases an existing record's clicks. -/
theorem C3_invariants (s : Store) (hWF : WF s) :
    (∀ raw now origin rs fuel r s',
        create raw now origin rs fuel s = some (r, s') →
        WF s' ∧ ClicksMono s s')
  ∧ (∀ code, WF (go code s).2 ∧ ClicksMono s (go code s).2)
  ∧ (∀ code step, WF (interstitial code step s).2
        ∧ ClicksMono s (interstitial code step s).2)
  ∧ (∀ code, WF (final code s).2 ∧ ClicksMono s (final code s).2) := by
  refine ⟨?_, ?_, ?_, ?_⟩
  · intro raw now origin rs fuel r s' h
    unfold create at h
    by_cases hv : is_valid_url (pyStrip raw) = true
    · rw [if_pos hv] at h
      cases hc : unique_code s rs fuel with
      | none => rw [hc] at h; cases h
      | some code =>
        rw [hc] at h
        simp only [Option.some.injEq, Prod.mk.injEq] at h
        obtain ⟨-, hs'⟩ := h
        subst hs'
        have hfresh : lookup code s = none := (unique_code_spec s rs fuel code hc).1
        exact ⟨insertOrReplace_preserves_WF code (pyStrip raw) now s hWF hv,
          insertOrReplace_clicksMono code (pyStrip raw) now s hfresh⟩
    · rw [if_neg hv] at h
      simp only [Option.some.injEq, Prod.mk.injEq] at h
      obtain ⟨-, hs'⟩ := h
      subst hs'
      exact ⟨hWF, clicksMono_refl s⟩
  · intro code
    rw [go_store_eq]
    exact ⟨hWF, clicksMono_refl s⟩
  · intro code step
    rw [interstitial_store_eq]
    exact ⟨hWF, clicksMono_refl s⟩
  · intro code
    cases hl : lookup code s with
    | none =>
      have hfs : (final code s).2 = s := by
        unfold final
        rw [hl]
      rw [hfs]
      exact ⟨hWF, clicksMono_refl s⟩
    | some l =>
      have hfs : (final code s).2 = increment_clicks code s := by
        unfold final
        rw [hl]
      rw [hfs]
      exact ⟨increment_preserves_WF code s hWF, increment_clicksMono code s⟩

/-- Witness for C3 on a concrete well-formed store hit by `final`. -/
theorem C3_invariants_witness :
    WF (final "aaaaaa" sampleStore).2
      ∧ ClicksMono sampleStore (final "aaaaaa" sampleStore).2 :=
  (C3_invariants sampleStore ⟨by decide, by decide⟩).2.2.2 "aaaaaa"

/-- C4 counterexample: the insert is `INSERT OR REPLACE`, so inserting a code
that is already present neither fails with a duplicate-key error nor leaves
the existing record unchanged — the record is replaced outright and its
clicks counter resets to the column default 0. -/
theorem C4_counterexample :
    insertOrReplace "abc123" "https://b.example/" "2024-01-02T00:00:00"
        [⟨"abc123", "https://a.example/", "2024-01-01T00:00:00", none, 5⟩]
      = [⟨"abc123", "https://b.example/", "2024-01-02T00:00:00", none, 0⟩]
    ∧ lookup "abc123"
        (insertOrReplace "abc123" "https://b.example/" "2024-01-02T00:00:00"
          [⟨"abc123", "https://a.example/", "2024-01-01T00:00:00", none, 5⟩])
      ≠ some ⟨"abc123", "https://a.example/", "2024-01-01T00:00:00", none, 5⟩ := by
  decide

/-- C4 amended: the insert has replace-on-conflict semantics — it always
succeeds, and after inserting `code` the only record with that code is the
fresh one (clicks 0); duplicate codes are instead avoided beforehand by
`unique_code`, which only ever returns a code absent from the store, so no
duplicate-key condition reaches the caller. -/
theorem C4_amended (s : Store) (code target now : String) :
    (lookup code (insertOrReplace code target now s)
        = some ⟨code, target, now, none, 0⟩
      ∧ ∀ l ∈ insertOrReplace code target now s, l.code = code →
          l = ⟨code, target, now, none, 0⟩)
  ∧ (∀ rs fuel c, unique_code s rs fuel = some c → lookup c s = none) := by
  refine ⟨⟨lookup_insertOrReplace_self code target now s, ?_⟩, ?_⟩
  · intro l hl hcode
    unfold insertOrReplace at hl
    rcases List.mem_append.mp hl with hm | hm
    · have hx2 := (List.mem_filter.mp hm).2
      rw [hcode] at hx2
      simp at hx2
    · simpa using hm
  · intro rs fuel c hc
    exact (unique_code_spec s rs fuel c hc).1

/-- Witness for the amended C4. -/
theorem C4_amended_witness :
    lookup "abc123"
        (insertOrReplace "abc123" "https://b.example/" "2024-01-02T00:00:00"
          [⟨"abc123", "https://a.example/", "2024-01-01T00:00:00", none, 5⟩])
      = some ⟨"abc123", "https://b.example/", "2024-01-02T00:00:00", none, 0⟩
  ∧ lookup "aaaaaa" ([] : Store) = none :=
  ⟨(C4_amended [⟨"abc123", "https://a.example/", "2024-01-01T00:00:00", none, 5⟩]
      "abc123" "https://b.example/" "2024-01-02T00:00:00").1.1,
   (C4_amended [] "x" "y" "z").2 (fun _ _ => 0) 1 "aaaaaa" (by decide)⟩

/-- C5: `POST /create` validates the submitted target (after the handler's
`strip()`): when it is not a valid URL — scheme http/https with a non-empty
host, per `is_valid_url` — the form is re-rendered with status 400 and
nothing is inserted; when it is valid a new Link is inserted and the
confirmation page carries the absolute short URL `<origin>/go/<code>`. -/
theorem C5_create_validation (raw now origin : String) (rs : Nat → Nat → Nat)
    (fuel : Nat) (s : Store) :
    (is_valid_url (pyStrip raw) = false →
        create raw now origin rs fuel s = some (.formPage 400 WAIT_SECONDS, s))
  ∧ (is_valid_url (pyStrip raw) = true →
      ∀ code, unique_code s rs fuel = some code →
        create raw now origin rs fuel s
          = some (.confirmPage (origin ++ "/go/" ++ code),
              insertOrReplace code (pyStrip raw) now s)
        ∧ lookup code (insertOrReplace code (pyStrip raw) now s)
            = some ⟨code, pyStrip raw, now, none, 0⟩) := by
  constructor
  · intro hv
    unfold create
    rw [if_neg (by simp [hv])]
  · intro hv code hc
    exact ⟨create_success raw now origin rs fuel s code hv hc,
      lookup_insertOrReplace_self code (pyStrip raw) now s⟩

/-- Witness for C5: an invalid submission is rejected with 400 and an
unchanged store; a valid one is inserted and confirmed. -/
theorem C5_create_validation_witness :
    create "not-a-url" "2024-01-01T00:00:00" "http://localhost"
        (fun _ _ => 0) 1 []
      = some (.formPage 400 WAIT_SECONDS, [])
  ∧ (create "https://example.com" "2024-01-01T00:00:00" "http://localhost"
        (fun _ _ => 0) 1 []
      = some (.confirmPage ("http://localhost" ++ "/go/" ++ "aaaaaa"),
          insertOrReplace "aaaaaa" (pyStrip "https://example.com")
            "2024-01-01T00:00:00" [])
     ∧ lookup "aaaaaa"
          (insertOrReplace "aaaaaa" (pyStrip "https://example.com")
            "2024-01-01T00:00:00" [])
        = some ⟨"aaaaaa", pyStrip "https://example.com",
            "2024-01-01T00:00:00", none, 0⟩) :=
  ⟨(C5_create_validation "not-a-url" "2024-01-01T00:00:00" "http://localhost"
      (fun _ _ => 0) 1 []).1 (by decide),
   (C5_create_validation "https://example.com" "2024-01-01T00:00:00"
      "http://localhost" (fun _ _ => 0) 1 []).2 (by decide) "aaaaaa" (by decide)⟩

/-- C6: `GET /s/<code>/<step>` with the code present redirects to
`/final/<code>` when `step > N` (N = INTERSTITIAL_STEPS = 1); otherwise it
renders the waiting page whose embedded `next_url` is `/s/<code>/<step+1>`
when `step < N` and `/final/<code>` when `step = N`; an absent code gives
404. -/
theorem C6_interstitial_steps (code : String) (step : Nat) (s : Store) :
    INTERSTITIAL_STEPS = 1
  ∧ (lookup code s = none → interstitial code step s = (.notFound, s))
  ∧ (lookup code s ≠ none →
      (step > INTERSTITIAL_STEPS →
          interstitial code step s = (.redirectTo (url_final code), s))
      ∧ (step < INTERSTITIAL_STEPS →
          interstitial code step s
            = (.interstitialPage WAIT_SECONDS (url_interstitial code (step + 1)), s))
      ∧ (step = INTERSTITIAL_STEPS →
          interstitial code step s
            = (.interstitialPage WAIT_SECONDS (url_final code), s))) := by
  refine ⟨rfl, ?_, ?_⟩
  · intro h
    unfold interstitial
    rw [h]
  · intro h
    cases hl : lookup code s with
    | none => exact absurd hl h
    | some l =>
      refine ⟨?_, ?_, ?_⟩
      · intro hstep
        unfold interstitial
        rw [hl]
        dsimp only
        rw [if_pos hstep]
      · intro hstep
        unfold interstitial
        rw [hl]
        dsimp only
        rw [if_neg (by omega), if_pos hstep]
      · intro hstep
        unfold interstitial
        rw [hl]
        dsimp only
        rw [if_neg (by omega), if_neg (by omega)]

/-- Witness for C6 at steps 2 (past N) and 1 (= N) of a known code and at an
unknown code. -/
theorem C6_interstitial_steps_witness :
    interstitial "zzzzzz" 1 sampleStore = (.notFound, sampleStore)
  ∧ interstitial "aaaaaa" 2 sampleStore
      = (.redirectTo (url_final "aaaaaa"), sampleStore)
  ∧ interstitial "aaaaaa" 1 sampleStore
      = (.interstitialPage WAIT_SECONDS (url_final "aaaaaa"), sampleStore) :=
  ⟨(C6_interstitial_steps "zzzzzz" 1 sampleStore).2.1 (by decide),
   ((C6_interstitial_steps "aaaaaa" 2 sampleStore).2.2 (by decide)).1 (by decide),
   ((C6_interstitial_steps "aaaaaa" 1 sampleStore).2.2 (by decide)).2.2 (by decide)⟩

/-- C7: `GET /go/<code>` yields 404 for an unknown code and a redirect to
`/s/<code>/1` for a known one, leaving the store unchanged either way. -/
theorem C7_go_entry (code : String) (s : Store) :
    (lookup code s = none → go code s = (.notFound, s))
  ∧ (lookup code s ≠ none →
      go code s = (.redirectTo ("/s/" ++ code ++ "/1"), s)) := by
  constructor
  · intro h
    unfold go
    rw [h]
  · intro h
    cases hl : lookup code s with
    | none => exact absurd hl h
    | some l =>
      unfold go
      rw [hl, ← url_interstitial_one]

/-- Witness for C7 at a known and an unknown code. -/
theorem C7_go_entry_witness :
    go "zzzzzz" sampleStore = (.notFound, sampleStore)
  ∧ go "aaaaaa" sampleStore
      = (.redirectTo ("/s/" ++ "aaaaaa" ++ "/1"), sampleStore) :=
  ⟨(C7_go_entry "zzzzzz" sampleStore).1 (by decide),
   (C7_go_entry "aaaaaa" sampleStore).2 (by decide)⟩

/-- C8: every generated code has length exactly 6 (= CODE_LEN) and all of its
characters lie in the 62-symbol alphanumeric alphabet (upper-case letters,
lower-case letters and digits); this holds for the raw `random_code` output
and for every code `unique_code` returns. -/
theorem C8_generated_codes :
    (∀ rs : Nat → Nat,
        (random_code CODE_LEN rs).length = 6
      ∧ ∀ ch ∈ (random_code CODE_LEN rs).data, ch ∈ BASE62)
  ∧ BASE62.length = 62
  ∧ (∀ ch ∈ BASE62, ch.isUpper = true ∨ ch.isLower = true ∨ ch.isDigit = true)
  ∧ (∀ (s : Store) (rs : Nat → Nat → Nat) (fuel : Nat) (c : String),
        unique_code s rs fuel = some c →
        c.length = 6 ∧ ∀ ch ∈ c.data, ch ∈ BASE62) := by
  refine ⟨?_, rfl, by decide, ?_⟩
  · intro rs
    exact ⟨random_code_length CODE_LEN rs, random_code_mem CODE_LEN rs⟩
  · intro s rs fuel c hc
    obtain ⟨-, k, rfl⟩ := unique_code_spec s rs fuel c hc
    exact ⟨random_code_length CODE_LEN (rs k), random_code_mem CODE_LEN (rs k)⟩

/-- Witness for C8 on a concrete random stream and a concrete generator run. -/
theorem C8_generated_codes_witness :
    ((random_code CODE_LEN (fun _ => 0)).length = 6
      ∧ ∀ ch ∈ (random_code CODE_LEN (fun _ => 0)).data, ch ∈ BASE62)
  ∧ (("aaaaaa" : String).length = 6
      ∧ ∀ ch ∈ ("aaaaaa" : String).data, ch ∈ BASE62) :=
  ⟨C8_generated_codes.1 (fun _ => 0),
   C8_generated_codes.2.2.2 [] (fun _ _ => 0) 1 "aaaaaa" (by decide)⟩

/-- C9: `POST /create` strips surrounding whitespace from the submitted
target before validating and storing: a submission whose stripped form is a
valid URL succeeds, the stored target is exactly the stripped string, and the
stored string has no leading or trailing whitespace. -/
theorem C9_target_stripped (raw now origin : String) (rs : Nat → Nat → Nat)
    (fuel : Nat) (s : Store) (code : String)
    (hv : is_valid_url (pyStrip raw) = true)
    (hc : unique_code s rs fuel = some code) :
    ∃ s', create raw now origin rs fuel s
        = some (.confirmPage (origin ++ "/go/" ++ code), s')
      ∧ lookup code s' = some ⟨code, pyStrip raw, now, none, 0⟩
      ∧ (∀ ch, (pyStrip raw).data.head? = some ch → pyWs ch = false)
      ∧ (∀ ch, (pyStrip raw).data.getLast? = some ch → pyWs ch = false) :=
  ⟨insertOrReplace code (pyStrip raw) now s,
    create_success raw now origin rs fuel s code hv hc,
    lookup_insertOrReplace_self code (pyStrip raw) now s,
    pyStrip_head raw, pyStrip_last raw⟩

/-- Witness for C9: `' https://example.com '` is accepted and stored as
`'https://example.com'`. -/
theorem C9_target_stripped_witness :
    ∃ s', create " https://example.com " "2024-01-02T00:00:00"
          "http://localhost" (fun _ _ => 0) 1 []
        = some (.confirmPage ("http://localhost" ++ "/go/" ++ "aaaaaa"), s')
      ∧ lookup "aaaaaa" s'
          = some ⟨"aaaaaa", "https://example.com", "2024-01-02T00:00:00", none, 0⟩
      ∧ (∀ ch, ("https://example.com" : String).data.head? = some ch →
            pyWs ch = false)
      ∧ (∀ ch, ("https://example.com" : String).data.getLast? = some ch →
            pyWs ch = false) :=
  C9_target_stripped " https://example.com " "2024-01-02T00:00:00"
    "http://localhost" (fun _ _ => 0) 1 [] "aaaaaa" (by decide) (by decide)

/-- C10: the `<int:step>` route converter matches any non-negative integer,
so `GET /s/<code>/0` is accepted; with N = INTERSTITIAL_STEPS = 1 and the
code present it renders a waiting page whose embedded next URL is
`/s/<code>/1` — an extra pre-first interstitial step, not an error. -/
theorem C10_step_zero (code : String) (s : Store) (h : lookup code s ≠ none) :
    flaskIntConvert "0" = some 0
  ∧ interstitial code 0 s
      = (.interstitialPage WAIT_SECONDS ("/s/" ++ code ++ "/1"), s) := by
  refine ⟨by decide, ?_⟩
  cases hl : lookup code s with
  | none => exact absurd hl h
  | some l =>
    unfold interstitial
    rw [hl]
    dsimp only
    rw [if_neg (by decide), if_pos (by decide), ← url_interstitial_one]

/-- Witness for C10 on a concrete store. -/
theorem C10_step_zero_witness :
    flaskIntConvert "0" = some 0
  ∧ interstitial "aaaaaa" 0 sampleStore
      = (.interstitialPage WAIT_SECONDS ("/s/" ++ "aaaaaa" ++ "/1"),
          sampleStore) :=
  C10_step_zero "aaaaaa" sampleStore (by decide)

end LinkySteps
